import Mathlib

/-!
Shallow embedding of the changed_debug Ansible stdout callback
(src/changed_debug.py) and verification of its specification claims.

The embedding models the callback as a pure state machine: the mutable
callback object (dedup set, document-opened flag, pending event block) is a
record threaded through the handler functions, and every line written to the
display transport is appended to an output log together with the abstract
color-name tokens requested for it (resolution of color names against the
external ansible constants table is outside this core and outside the model).

Python values flowing through the callback are modelled by the inductive
type PyVal; JSON-safe values produced by the sanitizer by JVal. Floating
point numbers and sets (whose iteration order is nondeterministic) are
outside the modelled value universe; byte strings are represented by their
UTF-8-with-replacement decoding, since no code path inspects raw bytes.
-/

namespace ChangedDebug

/-- One line written to the display transport: the text and the color names
requested for it (empty list models a plain uncolored display call). -/
structure OutLine where
  text : String
  colors : List String
deriving DecidableEq, Repr

/-- Python values appearing as task results, payload fields and option
values. The obj constructor models a class instance exposing an attribute
bag (its vars dict) together with its str rendering; objRaise models an
object whose attribute-bag introspection raises; other models any remaining
value via its str rendering. -/
inductive PyVal where
  | none
  | bool (b : Bool)
  | int (n : Int)
  | str (s : String)
  | bytes (decoded : String)
  | obj (attrs : List (String × PyVal)) (reprStr : String)
  | objRaise (reprStr : String)
  | dict (entries : List (PyVal × PyVal))
  | list (items : List PyVal)
  | tuple (items : List PyVal)
  | other (reprStr : String)

/-- JSON-safe values: the image of the sanitizer. -/
inductive JVal where
  | null
  | bool (b : Bool)
  | int (n : Int)
  | str (s : String)
  | obj (entries : List (String × JVal))
  | arr (items : List JVal)

/-- Python truthiness (bool(value)) for the modelled universe. Class
instances are truthy by default. -/
def pyTruthy : PyVal → Bool
  | .none => false
  | .bool b => b
  | .int n => n != 0
  | .str s => s != ""
  | .bytes d => d != ""
  | .obj _ _ => true
  | .objRaise _ => true
  | .dict es => !es.isEmpty
  | .list vs => !vs.isEmpty
  | .tuple vs => !vs.isEmpty
  | .other _ => true

/-- A single-quote character, as Python repr uses around text. -/
def sq : String := String.singleton (Char.ofNat 39)

mutual

/-- Python repr() of a JSON-safe value (string escaping inside repr is
simplified; no claim depends on it). -/
def pyReprJ : JVal → String
  | .null => "None"
  | .bool b => if b then "True" else "False"
  | .int n => toString n
  | .str s => sq ++ s ++ sq
  | .obj es => "\x7b" ++ pyReprJObj es ++ "\x7d"
  | .arr vs => "[" ++ pyReprJArr vs ++ "]"

def pyReprJObj : List (String × JVal) → String
  | [] => ""
  | [(k, v)] => sq ++ k ++ sq ++ ": " ++ pyReprJ v
  | (k, v) :: rest => sq ++ k ++ sq ++ ": " ++ pyReprJ v ++ ", " ++ pyReprJObj rest

def pyReprJArr : List JVal → String
  | [] => ""
  | [v] => pyReprJ v
  | v :: rest => pyReprJ v ++ ", " ++ pyReprJArr rest

end

/-- Python str() of a JSON-safe value: identity on text, repr otherwise. -/
def pyStrJ : JVal → String
  | .str s => s
  | v => pyReprJ v

mutual

/-- Python repr() of a PyVal (same simplifications as pyReprJ). -/
def pyReprP : PyVal → String
  | .none => "None"
  | .bool b => if b then "True" else "False"
  | .int n => toString n
  | .str s => sq ++ s ++ sq
  | .bytes d => "b" ++ sq ++ d ++ sq
  | .obj _ r => r
  | .objRaise r => r
  | .dict es => "\x7b" ++ pyReprPDict es ++ "\x7d"
  | .list vs => "[" ++ pyReprPList vs ++ "]"
  | .tuple vs => "(" ++ pyReprPList vs ++ ")"
  | .other r => r

def pyReprPDict : List (PyVal × PyVal) → String
  | [] => ""
  | [(k, v)] => pyReprP k ++ ": " ++ pyReprP v
  | (k, v) :: rest => pyReprP k ++ ": " ++ pyReprP v ++ ", " ++ pyReprPDict rest

def pyReprPList : List PyVal → String
  | [] => ""
  | [v] => pyReprP v
  | v :: rest => pyReprP v ++ ", " ++ pyReprPList rest

end

/-- Python str() of a PyVal: identity on text, repr otherwise. -/
def pyStrP : PyVal → String
  | .str s => s
  | v => pyReprP v

mutual

/-- CallbackModule._sanitize: convert complex objects into JSON-serializable
primitives. Primitives pass through; byte strings decode; an object exposing
an attribute bag is converted by sanitizing that bag as a mapping (an object
whose introspection raises falls back to its str rendering); mapping keys
are sanitized then coerced to text; sequences are sanitized elementwise;
anything else is stringified. This is the idealized unbounded-recursion
semantics; the bounded-recursion semantics used for the never-raises claim
is sanitizeFuel below. -/
def _sanitize : PyVal → JVal
  | .none => .null
  | .bool b => .bool b
  | .int n => .int n
  | .str s => .str s
  | .bytes d => .str d
  | .obj attrs _ => .obj (sanitizeAttrs attrs)
  | .objRaise r => .str r
  | .dict es => .obj (sanitizeEntries es)
  | .list vs => .arr (sanitizeItems vs)
  | .tuple vs => .arr (sanitizeItems vs)
  | .other r => .str r

/-- The vars dict of an object has text keys; routing it through the mapping
branch sanitizes each key (identity on text) and str-coerces it (identity on
text), so the keys are kept as they are. -/
def sanitizeAttrs : List (String × PyVal) → List (String × JVal)
  | [] => []
  | (k, v) :: rest => (k, _sanitize v) :: sanitizeAttrs rest

def sanitizeEntries : List (PyVal × PyVal) → List (String × JVal)
  | [] => []
  | (k, v) :: rest => (pyStrJ (_sanitize k), _sanitize v) :: sanitizeEntries rest

def sanitizeItems : List PyVal → List JVal
  | [] => []
  | v :: rest => _sanitize v :: sanitizeItems rest

end

/-- Lowercase hex digit. -/
def hexDigit (n : Nat) : Char :=
  if n < 10 then Char.ofNat (48 + n) else Char.ofNat (87 + n)

/-- Four lowercase hex digits, as in a JSON unicode escape. -/
def hex4 (n : Nat) : String :=
  String.mk [hexDigit (n / 4096 % 16), hexDigit (n / 256 % 16),
             hexDigit (n / 16 % 16), hexDigit (n % 16)]

/-- JSON string-character escaping as json.dumps performs it with
ensure_ascii disabled: quote, backslash and control characters are escaped,
everything else passes through. -/
def escChar (c : Char) : String :=
  if c = Char.ofNat 34 then "\\\""
  else if c = Char.ofNat 92 then "\\\\"
  else if c = Char.ofNat 10 then "\\n"
  else if c = Char.ofNat 9 then "\\t"
  else if c = Char.ofNat 13 then "\\r"
  else if c.toNat = 8 then "\\b"
  else if c.toNat = 12 then "\\f"
  else if c.toNat < 32 then "\\u" ++ hex4 c.toNat
  else String.singleton c

/-- A JSON string literal with ensure_ascii disabled. -/
def jsonQuote (s : String) : String :=
  "\"" ++ String.join (s.data.map escChar) ++ "\""

/-- JSON string-character escaping with ensure_ascii enabled (the json.dumps
default, used for recap host names): non-ASCII characters become unicode
escapes, astral characters a surrogate pair. -/
def escCharAscii (c : Char) : String :=
  if c.toNat < 128 then escChar c
  else if c.toNat < 65536 then "\\u" ++ hex4 c.toNat
  else
    "\\u" ++ hex4 (55296 + (c.toNat - 65536) / 1024) ++
    "\\u" ++ hex4 (56320 + (c.toNat - 65536) % 1024)

/-- A JSON string literal with ensure_ascii enabled. -/
def jsonQuoteAscii (s : String) : String :=
  "\"" ++ String.join (s.data.map escCharAscii) ++ "\""

mutual

/-- json.dumps with separators (",", ":") and no indent: the compact
single-line encoding. -/
def dumpsCompact : JVal → String
  | .null => "null"
  | .bool b => if b then "true" else "false"
  | .int n => toString n
  | .str s => jsonQuote s
  | .obj es => "\x7b" ++ dumpsCompactObj es ++ "\x7d"
  | .arr vs => "[" ++ dumpsCompactArr vs ++ "]"

def dumpsCompactObj : List (String × JVal) → String
  | [] => ""
  | [(k, v)] => jsonQuote k ++ ":" ++ dumpsCompact v
  | (k, v) :: rest => jsonQuote k ++ ":" ++ dumpsCompact v ++ "," ++ dumpsCompactObj rest

def dumpsCompactArr : List JVal → String
  | [] => ""
  | [v] => dumpsCompact v
  | v :: rest => dumpsCompact v ++ "," ++ dumpsCompactArr rest

end

/-- Indentation prefix of the pretty encoding: two spaces per level. -/
def pad (n : Nat) : String := String.join (List.replicate n "  ")

mutual

/-- json.dumps with indent 2 (and the default separators it implies): the
pretty multi-line encoding. The level argument is the indentation depth of
the closing bracket; the first line carries no indentation because the
caller has already placed it. -/
def dumpsIndent (lvl : Nat) : JVal → String
  | .null => "null"
  | .bool b => if b then "true" else "false"
  | .int n => toString n
  | .str s => jsonQuote s
  | .obj [] => "\x7b\x7d"
  | .obj (kv :: rest) =>
      "\x7b\n" ++ dumpsIndentObj (lvl + 1) (kv :: rest) ++ "\n" ++ pad lvl ++ "\x7d"
  | .arr [] => "[]"
  | .arr (v :: rest) =>
      "[\n" ++ dumpsIndentArr (lvl + 1) (v :: rest) ++ "\n" ++ pad lvl ++ "]"

def dumpsIndentObj (lvl : Nat) : List (String × JVal) → String
  | [] => ""
  | [(k, v)] => pad lvl ++ jsonQuote k ++ ": " ++ dumpsIndent lvl v
  | (k, v) :: rest =>
      pad lvl ++ jsonQuote k ++ ": " ++ dumpsIndent lvl v ++ ",\n" ++
      dumpsIndentObj lvl rest

def dumpsIndentArr (lvl : Nat) : List JVal → String
  | [] => ""
  | [v] => pad lvl ++ dumpsIndent lvl v
  | v :: rest => pad lvl ++ dumpsIndent lvl v ++ ",\n" ++ dumpsIndentArr lvl rest

end

/-- CallbackModule._to_output: sanitize the payload and encode it compactly
or prettily. -/
def _to_output (payload : PyVal) (compact : Bool) : String :=
  let j := _sanitize payload
  if compact then dumpsCompact j else dumpsIndent 0 j

/-- str.splitlines for the strings produced by the encoders: they contain
newline separators only and are nonempty without a trailing newline, where
splitting on the newline character coincides with splitlines. -/
def splitlines (s : String) : List String := s.splitOn "\n"

/-- The mutable state of the CallbackModule instance, plus two observation
logs: output is every line handed to the display transport in order, and
trace is a ghost log recording each payload queued through _emit_event with
its color names (it shadows no Python state and influences nothing). -/
structure CBState where
  show_unchanged_ok_tasks : Bool
  emitted_events : List (String × String × String)
  json_opened : Bool
  pending_event_line : Option (List String × List String)
  output : List OutLine
  trace : List (PyVal × List String)

/-- CallbackModule.__init__. -/
def initState : CBState :=
  { show_unchanged_ok_tasks := false
    emitted_events := []
    json_opened := false
    pending_event_line := Option.none
    output := []
    trace := [] }

/-- self._display.display(msg): write one plain line. -/
def displayPlain (s : CBState) (msg : String) : CBState :=
  { s with output := s.output ++ [⟨msg, []⟩] }

/-- CallbackModule._display_colored: write one line requesting the given
color names (resolution against the constants table is external; the model
records the requested names). -/
def _display_colored (s : CBState) (msg : String) (colorNames : List String) : CBState :=
  { s with output := s.output ++ [⟨msg, colorNames⟩] }

/-- CallbackModule._open_json_document. -/
def _open_json_document (s : CBState) : CBState :=
  if s.json_opened then s
  else
    { s with
      output := s.output ++ [⟨"\x7b", []⟩, ⟨"  \"events\": [", []⟩]
      json_opened := true }

/-- CallbackModule._append_comma_to_block: append a comma to the final line
of a block. -/
def _append_comma_to_block : List String → List String
  | [] => []
  | [l] => [l ++ ","]
  | l :: rest => l :: _append_comma_to_block rest

/-- CallbackModule._display_block_colored. -/
def _display_block_colored (s : CBState) (lines : List String) (colorNames : List String) : CBState :=
  { s with output := s.output ++ lines.map (fun l => ⟨l, colorNames⟩) }

/-- payload.get(key) for the dict payloads handed to the emitter. -/
def pyDictGet (payload : PyVal) (key : String) : Option PyVal :=
  match payload with
  | .dict es =>
      (es.find? (fun kv =>
        match kv.1 with
        | .str t => t == key
        | _ => false)).map (fun kv => kv.2)
  | _ => Option.none

/-- The formatted block of one event: the payload encoded (compactly exactly
when its event discriminator is the text task), split into lines, each line
prefixed for nesting. -/
def _event_block (payload : PyVal) : List String :=
  let compact :=
    match pyDictGet payload "event" with
    | some (.str e) => e == "task"
    | _ => false
  (splitlines (_to_output payload compact)).map (fun line => "    " ++ line)

/-- CallbackModule._emit_event: open the document if needed, format the
payload, comma-terminate and write any previously pending block, and leave
the new block pending. -/
def _emit_event (s : CBState) (payload : PyVal) (colorNames : List String) : CBState :=
  let s1 := _open_json_document s
  let lines := _event_block payload
  let s2 :=
    match s1.pending_event_line with
    | Option.none => s1
    | some (plines, pcolors) =>
        _display_block_colored s1 (_append_comma_to_block plines) pcolors
  { s2 with
    pending_event_line := some (lines, colorNames)
    trace := s2.trace ++ [(payload, colorNames)] }

/-- CallbackModule._flush_pending_event: write the pending block, if any,
without a trailing comma and clear it. -/
def _flush_pending_event (s : CBState) : CBState :=
  match s.pending_event_line with
  | Option.none => s
  | some (plines, pcolors) =>
      let s1 := _display_block_colored s plines pcolors
      { s1 with pending_event_line := Option.none }

/-- The role object attached to a task: getName models get_name() (Option
none models the call raising), roleName models the _role_name attribute. -/
structure PyRole where
  getName : Option String
  roleName : Option String

/-- The narrow read-only surface of a task object used by the callback. The
uuid field models the _uuid attribute (none means the attribute is absent,
making getattr fall back). -/
structure PyTask where
  action : String
  name : String
  uuid : Option String
  role : Option PyRole

/-- The narrow read-only surface of a result object: host name, task, and
the result-data mapping (Option none models a None _result). -/
structure PyResult where
  hostName : String
  task : PyTask
  rdata : Option (List (String × PyVal))

/-- result._result or an empty mapping. -/
def resultData (r : PyResult) : List (String × PyVal) :=
  r.rdata.getD []

/-- CallbackModule._task_role_name. -/
def _task_role_name (task : PyTask) : Option String :=
  match task.role with
  | Option.none => Option.none
  | some role =>
      match role.getName with
      | some n => some n
      | Option.none => role.roleName

/-- The role payload field: the role name, or null. -/
def roleVal (task : PyTask) : PyVal :=
  match _task_role_name task with
  | some n => .str n
  | Option.none => .none

/-- CallbackModule._is_debug_task. -/
def _is_debug_task (task : PyTask) : Bool :=
  task.action == "debug" || task.action == "ansible.builtin.debug"

/-- result_data.get(key) on an assoc-list mapping with text keys. -/
def dGet (data : List (String × PyVal)) (key : String) : Option PyVal :=
  (data.find? (fun kv => kv.1 == key)).map (fun kv => kv.2)

/-- item.get(key) on a nested mapping whose keys are themselves values; a
text key equal to the probe matches. -/
def pvGet (entries : List (PyVal × PyVal)) (key : String) : Option PyVal :=
  (entries.find? (fun kv =>
    match kv.1 with
    | .str t => t == key
    | _ => false)).map (fun kv => kv.2)

/-- CallbackModule._is_changed: a truthy top-level changed flag, or any dict
item of a nested results list with its own truthy changed flag. -/
def _is_changed (data : List (String × PyVal)) : Bool :=
  if pyTruthy ((dGet data "changed").getD (.bool false)) then true
  else
    match dGet data "results" with
    | some (.list items) =>
        items.any (fun item =>
          match item with
          | .dict es => pyTruthy ((pvGet es "changed").getD (.bool false))
          | _ => false)
    | _ => false

/-- CallbackModule._is_item_result. -/
def _is_item_result (data : List (String × PyVal)) : Bool :=
  pyTruthy ((dGet data "_ansible_item_result").getD (.bool false))

/-- CallbackModule._event_key: kind, host name, and the task identity, which
prefers the stable _uuid attribute and falls back to the display name. -/
def _event_key (event_name : String) (r : PyResult) : String × String × String :=
  (event_name, r.hostName,
    match r.task.uuid with
    | some u => u
    | Option.none => r.task.name)

/-- CallbackModule._should_emit_event: record-and-admit a fresh key,
suppress a seen one without re-recording. Returns the decision and the
updated state. -/
def _should_emit_event (s : CBState) (event_name : String) (r : PyResult) :
    Bool × CBState :=
  let key := _event_key event_name r
  if key ∈ s.emitted_events then (false, s)
  else (true, { s with emitted_events := key :: s.emitted_events })

/-- CallbackModule._task_payload: host, role and task name, then the extra
fields (the callers only pass extra keys distinct from the base ones, so the
dict update is a plain append). -/
def _task_payload (host : String) (task : PyTask) (extra : List (String × PyVal)) : PyVal :=
  .dict ((([("host", PyVal.str host), ("role", roleVal task), ("task", PyVal.str task.name)]
      ++ extra)).map (fun kv => (PyVal.str kv.1, kv.2)))

/-- result._result as a payload field value. -/
def rdataVal (r : PyResult) : PyVal :=
  match r.rdata with
  | Option.none => .none
  | some d => .dict (d.map (fun kv => (PyVal.str kv.1, kv.2)))

/-- CallbackModule._emit_result_event. -/
def _emit_result_event (s : CBState) (event_name : String) (r : PyResult)
    (colorNames : List String) : CBState :=
  match _should_emit_event s event_name r with
  | (false, s1) => s1
  | (true, s1) =>
      let payload := _task_payload r.hostName r.task
        [("event", .str event_name), ("result", rdataVal r)]
      _emit_event s1 payload colorNames

/-- CallbackModule._handle_ok_result: the successful-result classifier. -/
def _handle_ok_result (s : CBState) (r : PyResult) : CBState :=
  let host := r.hostName
  let task := r.task
  let data := resultData r
  let role := roleVal task
  let taskName := task.name
  if _is_debug_task task then
    match _should_emit_event s "debug" r with
    | (false, s1) => s1
    | (true, s1) =>
        let taskPayload : PyVal := .dict
          [(.str "event", .str "task"), (.str "host", .str host),
           (.str "role", role), (.str "task", .str taskName),
           (.str "action", .str task.action)]
        let s2 := _emit_event s1 taskPayload ["COLOR_TASK", "COLOR_VERBOSE"]
        let msg := (dGet data "msg").getD
          (.dict (data.map (fun kv => (PyVal.str kv.1, kv.2))))
        let debugPayload : PyVal := .dict
          [(.str "event", .str "debug"), (.str "host", .str host),
           (.str "role", role), (.str "task", .str taskName),
           (.str "msg", msg)]
        _emit_event s2 debugPayload ["COLOR_OK", "COLOR_DEBUG", "COLOR_VERBOSE"]
  else if _is_changed data then
    match _should_emit_event s "changed" r with
    | (false, s1) => s1
    | (true, s1) =>
        let payload : PyVal := .dict
          [(.str "event", .str "changed"), (.str "host", .str host),
           (.str "role", role), (.str "task", .str taskName)]
        _emit_event s1 payload ["COLOR_CHANGED"]
  else if s.show_unchanged_ok_tasks then
    match _should_emit_event s "ok" r with
    | (false, s1) => s1
    | (true, s1) =>
        let payload : PyVal := .dict
          [(.str "event", .str "ok"), (.str "host", .str host),
           (.str "role", role), (.str "task", .str taskName),
           (.str "changed", .bool false)]
        _emit_event s1 payload ["COLOR_OK", "COLOR_VERBOSE"]
  else s

/-- CallbackModule.v2_runner_on_ok: skip per-item sub-results (the item-level
hook handles them). -/
def v2_runner_on_ok (s : CBState) (r : PyResult) : CBState :=
  let data := resultData r
  if _is_item_result data then s
  else _handle_ok_result s r

/-- CallbackModule.v2_runner_item_on_ok. -/
def v2_runner_item_on_ok (s : CBState) (r : PyResult) : CBState :=
  _handle_ok_result s r

/-- CallbackModule.v2_playbook_on_start. -/
def v2_playbook_on_start (s : CBState) : CBState :=
  _open_json_document s

/-- CallbackModule.v2_playbook_on_task_start: intentionally a no-op. -/
def v2_playbook_on_task_start (s : CBState) : CBState := s

/-- CallbackModule.v2_runner_on_failed. -/
def v2_runner_on_failed (s : CBState) (r : PyResult) : CBState :=
  _emit_result_event s "failed" r ["COLOR_ERROR"]

/-- CallbackModule.v2_runner_on_unreachable. -/
def v2_runner_on_unreachable (s : CBState) (r : PyResult) : CBState :=
  _emit_result_event s "unreachable" r ["COLOR_UNREACHABLE", "COLOR_ERROR"]

/-- The recognized true tokens. -/
def _TRUE_VALUES : List String := ["1", "true", "yes", "on", "y"]

/-- The recognized false tokens. -/
def _FALSE_VALUES : List String := ["0", "false", "no", "off", "n"]

/-- str.strip at the character-list level (ASCII whitespace). -/
def stripStr (s : String) : String :=
  String.mk (((s.data.dropWhile Char.isWhitespace).reverse.dropWhile Char.isWhitespace).reverse)

/-- str.lower at the character-list level (ASCII case folding). -/
def lowerStr (s : String) : String :=
  String.mk (s.data.map Char.toLower)

/-- CallbackModule._to_bool: None yields the default, a genuine bool is
itself, any other value is stringified, stripped, lowercased and looked up
among the recognized tokens, defaulting when unrecognized. -/
def _to_bool (value : Option PyVal) (default : Bool) : Bool :=
  match value with
  | Option.none => default
  | some (.bool b) => b
  | some v =>
      let text := lowerStr (stripStr (pyStrP v))
      if text ∈ _TRUE_VALUES then true
      else if text ∈ _FALSE_VALUES then false
      else default

/-- CallbackModule.set_options: optionValue models the get_option result
(none when the call raises or yields None); env models os.getenv. The
environment is consulted, primary name then legacy alias, only when the
option source yielded None; the first environment hit is taken verbatim. -/
def set_options (s : CBState) (optionValue : Option PyVal)
    (env : String → Option String) : CBState :=
  let resolved : Option PyVal :=
    match optionValue with
    | some v => some v
    | Option.none =>
        match env "ANSIBLE_CHANGED_DEBUG_SHOW_OK" with
        | some e => some (.str e)
        | Option.none =>
            match env "CHANGED_DEBUG_SHOW_OK" with
            | some e => some (.str e)
            | Option.none => Option.none
  { s with show_unchanged_ok_tasks := _to_bool resolved false }

/-- The end-of-run statistics object: the tracked host names and the
summarize mapping per host. -/
structure PyStats where
  processed : List String
  summarize : String → List (String × Nat)

/-- summary.get(key, 0). -/
def sGet (summary : List (String × Nat)) (key : String) : Nat :=
  ((summary.find? (fun kv => kv.1 == key)).map (fun kv => kv.2)).getD 0

/-- The seven-counter recap summary built from a summarize result (the
failed counter is sourced from the failures key). -/
def buildSummary (s : List (String × Nat)) : List (String × Nat) :=
  [("ok", sGet s "ok"), ("changed", sGet s "changed"),
   ("unreachable", sGet s "unreachable"), ("failed", sGet s "failures"),
   ("skipped", sGet s "skipped"), ("rescued", sGet s "rescued"),
   ("ignored", sGet s "ignored")]

/-- CallbackModule._recap_color_names: the styling tier of one host line,
unreachable before failed before changed before plain ok. -/
def _recap_color_names (summary : List (String × Nat)) : List String :=
  if sGet summary "unreachable" > 0 then ["COLOR_UNREACHABLE", "COLOR_ERROR"]
  else if sGet summary "failed" > 0 then ["COLOR_ERROR"]
  else if sGet summary "changed" > 0 then ["COLOR_CHANGED", "COLOR_WARN"]
  else ["COLOR_OK", "COLOR_VERBOSE"]

/-- The summary as a payload value for compact encoding. -/
def summaryVal (summary : List (String × Nat)) : PyVal :=
  .dict (summary.map (fun kv => (PyVal.str kv.1, PyVal.int (Int.ofNat kv.2))))

/-- One recap line: the quoted host name, the compactly encoded summary, and
a separating comma on every line but the last. -/
def recapLine (host : String) (summary : List (String × Nat)) (isLast : Bool) : String :=
  "    " ++ jsonQuoteAscii host ++ ": " ++ _to_output (summaryVal summary) true ++
    (if isLast then "" else ",")

/-- The recap loop body of v2_playbook_on_stats: one colored line per host,
in the given order, comma-suffixed exactly while hosts remain. -/
def emitRecapLoop (stats : PyStats) : CBState → List String → CBState
  | s, [] => s
  | s, host :: rest =>
      let summary := buildSummary (stats.summarize host)
      let line := recapLine host summary rest.isEmpty
      emitRecapLoop stats (_display_colored s line (_recap_color_names summary)) rest

/-- sorted(stats.processed.keys()): ascending lexicographic host order. -/
def sortedHosts (stats : PyStats) : List String :=
  List.insertionSort (· ≤ ·) stats.processed

/-- CallbackModule.v2_playbook_on_stats: open the document if it never was,
flush the pending event, close the events array, write the recap object with
one line per tracked host in sorted order, and close the document. -/
def v2_playbook_on_stats (s : CBState) (stats : PyStats) : CBState :=
  let s1 := _open_json_document s
  let s2 := _flush_pending_event s1
  let s3 := displayPlain s2 "  ],"
  let s4 := _display_colored s3 "  \"play_recap\": \x7b" ["COLOR_TASK", "COLOR_VERBOSE"]
  let s5 := emitRecapLoop stats s4 (sortedHosts stats)
  let s6 := _display_colored s5 "  \x7d" ["COLOR_TASK", "COLOR_VERBOSE"]
  displayPlain s6 "\x7d"

/-!
Bounded-recursion model of the sanitizer, for the never-raises claim. The
host language bounds recursion depth: a recursive sanitize call with no fuel
left models the recursion limit being hit and raising. The try block around
the attribute-bag branch catches any exception arising below it, so an
object frame converts an error from its bag into the str fallback, while
mapping and sequence frames propagate errors. PyValR additionally has a
selfLoop constructor: an object whose attribute bag contains the object
itself under the key self, the canonical cyclic self-referential bag, which
no finite inductive value can otherwise represent. -/

/-- Python values, including the cyclic self-referential object. -/
inductive PyValR where
  | none
  | bool (b : Bool)
  | int (n : Int)
  | str (s : String)
  | bytes (decoded : String)
  | obj (attrs : List (String × PyValR)) (reprStr : String)
  | objRaise (reprStr : String)
  | selfLoop (reprStr : String)
  | dict (entries : List (PyValR × PyValR))
  | list (items : List PyValR)
  | tuple (items : List PyValR)
  | other (reprStr : String)

mutual

/-- CallbackModule._sanitize under a recursion-depth bound: fuel zero is the
recursion limit raising; the attribute-bag branch catches errors from the
bag and falls back to the str rendering; mapping and sequence branches
propagate errors from their elements. -/
def sanitizeFuel : Nat → PyValR → Except Unit JVal
  | 0, _ => .error ()
  | _ + 1, .none => .ok .null
  | _ + 1, .bool b => .ok (.bool b)
  | _ + 1, .int n => .ok (.int n)
  | _ + 1, .str s => .ok (.str s)
  | _ + 1, .bytes d => .ok (.str d)
  | d + 1, .obj attrs r =>
      match sanitizeFuel d (.dict (attrs.map (fun kv => (.str kv.1, kv.2)))) with
      | .error _ => .ok (.str r)
      | .ok j => .ok j
  | _ + 1, .objRaise r => .ok (.str r)
  | d + 1, .selfLoop r =>
      match sanitizeFuel d (.dict [(.str "self", .selfLoop r)]) with
      | .error _ => .ok (.str r)
      | .ok j => .ok j
  | d + 1, .dict es =>
      match sanitizeEntriesFuel d es with
      | .error e => .error e
      | .ok out => .ok (.obj out)
  | d + 1, .list vs =>
      match sanitizeItemsFuel d vs with
      | .error e => .error e
      | .ok out => .ok (.arr out)
  | d + 1, .tuple vs =>
      match sanitizeItemsFuel d vs with
      | .error e => .error e
      | .ok out => .ok (.arr out)
  | _ + 1, .other r => .ok (.str r)
termination_by d _ => (d, 0)

def sanitizeEntriesFuel : Nat → List (PyValR × PyValR) → Except Unit (List (String × JVal))
  | _, [] => .ok []
  | d, (k, v) :: rest =>
      match sanitizeFuel d k with
      | .error e => .error e
      | .ok jk =>
          match sanitizeFuel d v with
          | .error e => .error e
          | .ok jv =>
              match sanitizeEntriesFuel d rest with
              | .error e => .error e
              | .ok out => .ok ((pyStrJ jk, jv) :: out)
termination_by d es => (d, es.length + 1)

def sanitizeItemsFuel : Nat → List PyValR → Except Unit (List JVal)
  | _, [] => .ok []
  | d, v :: rest =>
      match sanitizeFuel d v with
      | .error e => .error e
      | .ok jv =>
          match sanitizeItemsFuel d rest with
          | .error e => .error e
          | .ok out => .ok (jv :: out)
termination_by d vs => (d, vs.length + 1)

end

mutual

/-- The nesting depth that must be affordable for sanitizeFuel to succeed.
Frames that can never let an error escape (scalars, and the attribute-bag
branches, whose try catches everything from below) have depth zero; a
mapping or sequence frame needs one more level than its elements. -/
def depthR : PyValR → Nat
  | .dict es => 1 + depthEntriesR es
  | .list vs => 1 + depthItemsR vs
  | .tuple vs => 1 + depthItemsR vs
  | _ => 0

def depthEntriesR : List (PyValR × PyValR) → Nat
  | [] => 0
  | (k, v) :: rest => max (max (depthR k) (depthR v)) (depthEntriesR rest)

def depthItemsR : List PyValR → Nat
  | [] => 0
  | v :: rest => max (depthR v) (depthItemsR rest)

end

/-!
Spec-side combinators used to state the claims. -/

/-- Run a sequence of queue operations through the emitter. -/
def emitSeq : List (PyVal × List String) → CBState → CBState
  | [], s => s
  | p :: ps, s => emitSeq ps (_emit_event s p.1 p.2)

/-- The output lines the emitter owes for a currently pending block followed
by further queued events: each block except the final one is written with a
comma appended to its last line, in queue order, each line carrying the
colors of its own event. -/
def renderBlocksFrom : List String × List String → List (PyVal × List String) → List OutLine
  | (bl, c), [] => bl.map (fun l => ⟨l, c⟩)
  | (bl, c), p :: ps =>
      (_append_comma_to_block bl).map (fun l => ⟨l, c⟩) ++
      renderBlocksFrom (_event_block p.1, p.2) ps

/-- The event-array body for a whole queue of events. -/
def renderBlocks : List (PyVal × List String) → List OutLine
  | [] => []
  | p :: ps => renderBlocksFrom (_event_block p.1, p.2) ps

/-- Iterated document opening. -/
def iterOpen : Nat → CBState → CBState
  | 0, s => s
  | n + 1, s => iterOpen n (_open_json_document s)

/-- The recap lines owed for a host list: one colored line per host in list
order, comma-suffixed exactly while further hosts remain. -/
def recapOutLines (stats : PyStats) : List String → List OutLine
  | [] => []
  | host :: rest =>
      ⟨recapLine host (buildSummary (stats.summarize host)) rest.isEmpty,
       _recap_color_names (buildSummary (stats.summarize host))⟩ ::
      recapOutLines stats rest

/-!
Concrete fixtures used by witness theorems. -/

/-- A task running a non-debug action. -/
def taskShell : PyTask :=
  { action := "shell", name := "install", uuid := some "uuid-1", role := Option.none }

/-- A successful result reporting a state change. -/
def resChanged : PyResult :=
  { hostName := "web1", task := taskShell, rdata := some [("changed", .bool true)] }

/-- A successful result reporting no state change. -/
def resUnchanged : PyResult :=
  { hostName := "web2", task := taskShell, rdata := some [("changed", .bool false)] }

/-- A task running the built-in debug action. -/
def taskDebug : PyTask :=
  { action := "debug", name := "say hello", uuid := some "uuid-2", role := Option.none }

/-- A successful debug-action result with an explicit msg field. -/
def resDebug : PyResult :=
  { hostName := "web1", task := taskDebug, rdata := some [("msg", .str "hello")] }

/-- An environment in which only the primary variable is set, to a true
token. -/
def envPrimaryTrue : String → Option String :=
  fun name => if name == "ANSIBLE_CHANGED_DEBUG_SHOW_OK" then some "true" else Option.none

/-!
Helper lemmas about the emitter state machine. -/

theorem open_json_trace (s : CBState) : (_open_json_document s).trace = s.trace := by
  unfold _open_json_document; split <;> rfl

theorem open_json_emitted (s : CBState) :
    (_open_json_document s).emitted_events = s.emitted_events := by
  unfold _open_json_document; split <;> rfl

theorem open_json_pending (s : CBState) :
    (_open_json_document s).pending_event_line = s.pending_event_line := by
  unfold _open_json_document; split <;> rfl

theorem emit_event_trace (s : CBState) (p : PyVal) (c : List String) :
    (_emit_event s p c).trace = s.trace ++ [(p, c)] := by
  unfold _emit_event
  rcases h : (_open_json_document s).pending_event_line with _ | ⟨bl, pc⟩ <;>
    simp [h, _display_block_colored, open_json_trace]

theorem emit_event_emitted (s : CBState) (p : PyVal) (c : List String) :
    (_emit_event s p c).emitted_events = s.emitted_events := by
  unfold _emit_event
  rcases h : (_open_json_document s).pending_event_line with _ | ⟨bl, pc⟩ <;>
    simp [h, _display_block_colored, open_json_emitted]

/-- A document already open stays exactly as it is under any number of
further open calls. -/
theorem iterOpen_of_opened (n : Nat) (s : CBState) (h : s.json_opened = true) :
    iterOpen n s = s := by
  induction n with
  | zero => rfl
  | succ k ih => simp [iterOpen, _open_json_document, h, ih]

/-- C8: open_document is idempotent. Any call on an already-open document
changes nothing, and for every positive number of calls on a fresh document
the opening scaffold, the outer object opener and the events array opener,
is printed exactly once and the document-opened flag is set. -/
theorem c8_open_document_idempotent :
    (∀ s : CBState, s.json_opened = true → _open_json_document s = s) ∧
    (∀ n : Nat, 1 ≤ n → ∀ s : CBState, s.json_opened = false →
      iterOpen n s =
        { s with
          output := s.output ++ [⟨"\x7b", []⟩, ⟨"  \"events\": [", []⟩]
          json_opened := true }) := by
  constructor
  · intro s h
    simp [_open_json_document, h]
  · intro n hn s h
    match n, hn with
    | 1, _ =>
        simp [iterOpen, _open_json_document, h]
    | (k + 2), _ =>
        have hstep : _open_json_document s =
            { s with
              output := s.output ++ [⟨"\x7b", []⟩, ⟨"  \"events\": [", []⟩]
              json_opened := true } := by
          simp [_open_json_document, h]
        calc iterOpen (k + 2) s
            = iterOpen (k + 1) (_open_json_document s) := rfl
          _ = _ := by rw [hstep, iterOpen_of_opened]; rfl

/-- Witness for C8 at three consecutive calls on the fresh initial state. -/
theorem c8_witness :
    iterOpen 3 initState =
      { initState with
        output := initState.output ++ [⟨"\x7b", []⟩, ⟨"  \"events\": [", []⟩]
        json_opened := true } :=
  c8_open_document_idempotent.2 3 (by decide) initState rfl

/-- C4: dedup behavior. A fresh key is recorded and admitted; a seen key is
suppressed without re-recording; the recorded-key set grows monotonically;
two results with the same key admit only the first; results differing in
host or kind are both admitted; the task identity is the stable uuid when
present and the display name otherwise. -/
theorem c4_dedup (s : CBState) (kind kind2 : String) (r r2 : PyResult) :
    (_event_key kind r ∉ s.emitted_events →
      _should_emit_event s kind r =
        (true, { s with emitted_events := _event_key kind r :: s.emitted_events })) ∧
    (_event_key kind r ∈ s.emitted_events → _should_emit_event s kind r = (false, s)) ∧
    (s.emitted_events ⊆ (_should_emit_event s kind r).2.emitted_events) ∧
    (_event_key kind r = _event_key kind2 r2 → _event_key kind r ∉ s.emitted_events →
      (_should_emit_event s kind r).1 = true ∧
      (_should_emit_event (_should_emit_event s kind r).2 kind2 r2).1 = false) ∧
    ((r.hostName ≠ r2.hostName ∨ kind ≠ kind2) →
      _event_key kind r ∉ s.emitted_events → _event_key kind2 r2 ∉ s.emitted_events →
      (_should_emit_event s kind r).1 = true ∧
      (_should_emit_event (_should_emit_event s kind r).2 kind2 r2).1 = true) ∧
    (∀ u, r.task.uuid = some u → (_event_key kind r).2.2 = u) ∧
    (r.task.uuid = Option.none → (_event_key kind r).2.2 = r.task.name) := by
  refine ⟨?_, ?_, ?_, ?_, ?_, ?_, ?_⟩
  · intro h; simp [_should_emit_event, h]
  · intro h; simp [_should_emit_event, h]
  · by_cases h : _event_key kind r ∈ s.emitted_events
    · simp [_should_emit_event, h]
    · simp [_should_emit_event, h]
  · intro heq h
    constructor
    · simp [_should_emit_event, h]
    · simp [_should_emit_event, h, ← heq]
  · intro hne h h2
    have hkeys : _event_key kind2 r2 ≠ _event_key kind r := by
      intro hk
      rcases hne with hh | hk2
      · exact hh (congrArg (fun k => k.2.1) hk).symm
      · exact hk2 (congrArg (fun k => k.1) hk).symm
    constructor
    · simp [_should_emit_event, h]
    · simp [_should_emit_event, h, h2, hkeys]
  · intro u hu; simp [_event_key, hu]
  · intro hu; simp [_event_key, hu]

/-- Witness for C4: same key twice admits only the first; keys differing in
host both admit; the identity is the uuid here. -/
theorem c4_witness :
    ((_should_emit_event initState "changed" resChanged).1 = true ∧
      (_should_emit_event
        (_should_emit_event initState "changed" resChanged).2 "changed" resChanged).1 = false) ∧
    ((_should_emit_event initState "changed" resChanged).1 = true ∧
      (_should_emit_event
        (_should_emit_event initState "changed" resChanged).2 "changed" resUnchanged).1 = true) ∧
    (_event_key "changed" resChanged).2.2 = "uuid-1" :=
  ⟨(c4_dedup initState "changed" "changed" resChanged resChanged).2.2.2.1 rfl (by decide),
   (c4_dedup initState "changed" "changed" resChanged resUnchanged).2.2.2.2.1
     (Or.inl (by decide)) (by decide) (by decide),
   (c4_dedup initState "changed" "changed" resChanged resChanged).2.2.2.2.2.1
     "uuid-1" rfl⟩

/-- C3, counterexample: the claim asserts that when the option source yields
an unrecognized token the environment variables are still consulted before
defaulting. Here the option source yields the unrecognized token maybe and
the primary environment variable holds the recognized true token, yet the
flag resolves to false: the code consults the environment only when the
option source yields no value at all. -/
theorem c3_counterexample :
    (set_options initState (some (.str "maybe")) envPrimaryTrue).show_unchanged_ok_tasks
      = false := by decide

/-- C3, amended: the flag resolution order. The option source, when it
yields a value, fully determines the outcome and the environment is never
consulted, even when the token is unrecognized (then the default false is
used directly); only when the option source yields no value is the primary
environment variable consulted, then the legacy alias, then the default;
tokens are stripped, lowercased, and matched against the recognized true
tokens 1, true, yes, on, y and false tokens 0, false, no, off, n, with
unrecognized tokens falling back to the default. -/
theorem c3_option_resolution :
    (∀ (s : CBState) (v : PyVal) (env env2 : String → Option String),
      set_options s (some v) env = set_options s (some v) env2) ∧
    (∀ (s : CBState) (v : PyVal) (env : String → Option String),
      (set_options s (some v) env).show_unchanged_ok_tasks = _to_bool (some v) false) ∧
    (∀ (s : CBState) (env : String → Option String) (e : String),
      env "ANSIBLE_CHANGED_DEBUG_SHOW_OK" = some e →
      (set_options s Option.none env).show_unchanged_ok_tasks =
        _to_bool (some (.str e)) false) ∧
    (∀ (s : CBState) (env : String → Option String) (e : String),
      env "ANSIBLE_CHANGED_DEBUG_SHOW_OK" = Option.none →
      env "CHANGED_DEBUG_SHOW_OK" = some e →
      (set_options s Option.none env).show_unchanged_ok_tasks =
        _to_bool (some (.str e)) false) ∧
    (∀ (s : CBState) (env : String → Option String),
      env "ANSIBLE_CHANGED_DEBUG_SHOW_OK" = Option.none →
      env "CHANGED_DEBUG_SHOW_OK" = Option.none →
      (set_options s Option.none env).show_unchanged_ok_tasks = false) ∧
    (∀ (tok : String) (d : Bool), lowerStr (stripStr tok) ∈ _TRUE_VALUES →
      _to_bool (some (.str tok)) d = true) ∧
    (∀ (tok : String) (d : Bool), lowerStr (stripStr tok) ∈ _FALSE_VALUES →
      _to_bool (some (.str tok)) d = false) ∧
    (∀ (tok : String) (d : Bool), lowerStr (stripStr tok) ∉ _TRUE_VALUES →
      lowerStr (stripStr tok) ∉ _FALSE_VALUES → _to_bool (some (.str tok)) d = d) ∧
    (∀ (b d : Bool), _to_bool (some (.bool b)) d = b) ∧
    (∀ d : Bool, _to_bool Option.none d = d) := by
  refine ⟨?_, ?_, ?_, ?_, ?_, ?_, ?_, ?_, ?_, ?_⟩
  · intro s v env env2; rfl
  · intro s v env; rfl
  · intro s env e h; simp [set_options, h]
  · intro s env e h h2; simp [set_options, h, h2]
  · intro s env h h2; simp [set_options, h, h2, _to_bool]
  · intro tok d h; simp [_to_bool, pyStrP, h]
  · intro tok d h
    have hnt : lowerStr (stripStr tok) ∉ _TRUE_VALUES := by
      intro ht
      have hf : lowerStr (stripStr tok) ∈ _FALSE_VALUES := h
      simp only [_TRUE_VALUES, _FALSE_VALUES, List.mem_cons, List.not_mem_nil,
        or_false] at ht hf
      rcases hf with h1 | h1 | h1 | h1 | h1 <;>
        rcases ht with h2 | h2 | h2 | h2 | h2 <;>
        (rw [h1] at h2; exact absurd h2 (by decide))
    simp [_to_bool, pyStrP, hnt, h]
  · intro tok d h h2; simp [_to_bool, pyStrP, h, h2]
  · intro b d; rfl
  · intro d; rfl

/-- Witness for C3 amended: the primary environment variable decides when
the option source is empty; token recognition is case- and
whitespace-insensitive; an unrecognized token defaults. -/
theorem c3_witness :
    ((set_options initState Option.none envPrimaryTrue).show_unchanged_ok_tasks =
      _to_bool (some (.str "true")) false) ∧
    _to_bool (some (.str " YES ")) false = true ∧
    _to_bool (some (.str "off")) true = false ∧
    _to_bool (some (.str "maybe")) false = false :=
  ⟨c3_option_resolution.2.2.1 initState envPrimaryTrue "true" (by decide),
   c3_option_resolution.2.2.2.2.2.1 " YES " false (by decide),
   c3_option_resolution.2.2.2.2.2.2.1 "off" true (by decide),
   c3_option_resolution.2.2.2.2.2.2.2.1 "maybe" false (by decide) (by decide)⟩

/-- C2: policy for successful non-debug results. A changed result with a
fresh key queues exactly one changed event carrying host, role and task
name, recorded under kind changed; a changed result with a seen key changes
nothing; an unchanged result with the unchanged-display flag on and a fresh
key queues exactly one ok event with a false changed field; with the flag on
and a seen key nothing happens; with the flag off nothing happens. -/
theorem c2_changed_policy (s : CBState) (r : PyResult)
    (hnd : _is_debug_task r.task = false) :
    (_is_changed (resultData r) = true → _event_key "changed" r ∉ s.emitted_events →
      (_handle_ok_result s r).trace = s.trace ++
        [(.dict [(.str "event", .str "changed"), (.str "host", .str r.hostName),
                 (.str "role", roleVal r.task), (.str "task", .str r.task.name)],
          ["COLOR_CHANGED"])] ∧
      (_handle_ok_result s r).emitted_events =
        _event_key "changed" r :: s.emitted_events) ∧
    (_is_changed (resultData r) = true → _event_key "changed" r ∈ s.emitted_events →
      _handle_ok_result s r = s) ∧
    (_is_changed (resultData r) = false → s.show_unchanged_ok_tasks = true →
      _event_key "ok" r ∉ s.emitted_events →
      (_handle_ok_result s r).trace = s.trace ++
        [(.dict [(.str "event", .str "ok"), (.str "host", .str r.hostName),
                 (.str "role", roleVal r.task), (.str "task", .str r.task.name),
                 (.str "changed", .bool false)],
          ["COLOR_OK", "COLOR_VERBOSE"])] ∧
      (_handle_ok_result s r).emitted_events = _event_key "ok" r :: s.emitted_events) ∧
    (_is_changed (resultData r) = false → s.show_unchanged_ok_tasks = true →
      _event_key "ok" r ∈ s.emitted_events → _handle_ok_result s r = s) ∧
    (_is_changed (resultData r) = false → s.show_unchanged_ok_tasks = false →
      _handle_ok_result s r = s) := by
  refine ⟨?_, ?_, ?_, ?_, ?_⟩
  · intro hc hk
    have step : _should_emit_event s "changed" r =
        (true, { s with emitted_events := _event_key "changed" r :: s.emitted_events }) := by
      simp [_should_emit_event, hk]
    simp [_handle_ok_result, hnd, hc, step, emit_event_trace, emit_event_emitted]
  · intro hc hk
    have step : _should_emit_event s "changed" r = (false, s) := by
      simp [_should_emit_event, hk]
    simp [_handle_ok_result, hnd, hc, step]
  · intro hc hf hk
    have step : _should_emit_event s "ok" r =
        (true, { s with emitted_events := _event_key "ok" r :: s.emitted_events }) := by
      simp [_should_emit_event, hk]
    simp [_handle_ok_result, hnd, hc, hf, step, emit_event_trace, emit_event_emitted]
  · intro hc hf hk
    have step : _should_emit_event s "ok" r = (false, s) := by
      simp [_should_emit_event, hk]
    simp [_handle_ok_result, hnd, hc, hf, step]
  · intro hc hf
    simp [_handle_ok_result, hnd, hc, hf]

/-- Witness for C2 on a concrete changed result and a concrete unchanged
result with the display flag off. -/
theorem c2_witness :
    ((_handle_ok_result initState resChanged).trace =
      [(.dict [(.str "event", .str "changed"), (.str "host", .str "web1"),
               (.str "role", PyVal.none), (.str "task", .str "install")],
        ["COLOR_CHANGED"])] ∧
     (_handle_ok_result initState resChanged).emitted_events =
       [("changed", "web1", "uuid-1")]) ∧
    _handle_ok_result initState resUnchanged = initState :=
  ⟨(c2_changed_policy initState resChanged (by decide)).1 (by decide) (by decide),
   (c2_changed_policy initState resUnchanged (by decide)).2.2.2.2 (by decide) rfl⟩

/-- Effect of the classifier on a debug-action result with a fresh debug
key: both payloads queued in order, the debug key recorded. -/
theorem handle_debug_fresh (s : CBState) (r : PyResult)
    (hd : _is_debug_task r.task = true)
    (hfresh : _event_key "debug" r ∉ s.emitted_events) :
    (_handle_ok_result s r).trace = s.trace ++
      [(.dict [(.str "event", .str "task"), (.str "host", .str r.hostName),
               (.str "role", roleVal r.task), (.str "task", .str r.task.name),
               (.str "action", .str r.task.action)],
        ["COLOR_TASK", "COLOR_VERBOSE"]),
       (.dict [(.str "event", .str "debug"), (.str "host", .str r.hostName),
               (.str "role", roleVal r.task), (.str "task", .str r.task.name),
               (.str "msg", (dGet (resultData r) "msg").getD
                 (.dict ((resultData r).map (fun kv => (PyVal.str kv.1, kv.2)))))],
        ["COLOR_OK", "COLOR_DEBUG", "COLOR_VERBOSE"])] ∧
    (_handle_ok_result s r).emitted_events = _event_key "debug" r :: s.emitted_events := by
  have step : _should_emit_event s "debug" r =
      (true, { s with emitted_events := _event_key "debug" r :: s.emitted_events }) := by
    simp [_should_emit_event, hfresh]
  constructor
  · simp [_handle_ok_result, hd, step, emit_event_trace]
  · simp [_handle_ok_result, hd, step, emit_event_emitted]

/-- C5: for a successful debug-action result with a fresh key of kind debug,
the classifier queues a task event, echoing host, role, task name and
action, immediately followed by a debug event whose msg is the explicit msg
field of the result data if present and otherwise the whole result-data
mapping, and records the single key of kind debug. -/
theorem c5_debug_pair (s : CBState) (r : PyResult)
    (hd : _is_debug_task r.task = true)
    (hfresh : _event_key "debug" r ∉ s.emitted_events) :
    (_handle_ok_result s r).trace = s.trace ++
      [(.dict [(.str "event", .str "task"), (.str "host", .str r.hostName),
               (.str "role", roleVal r.task), (.str "task", .str r.task.name),
               (.str "action", .str r.task.action)],
        ["COLOR_TASK", "COLOR_VERBOSE"]),
       (.dict [(.str "event", .str "debug"), (.str "host", .str r.hostName),
               (.str "role", roleVal r.task), (.str "task", .str r.task.name),
               (.str "msg", (dGet (resultData r) "msg").getD
                 (.dict ((resultData r).map (fun kv => (PyVal.str kv.1, kv.2)))))],
        ["COLOR_OK", "COLOR_DEBUG", "COLOR_VERBOSE"])] ∧
    (_handle_ok_result s r).emitted_events = _event_key "debug" r :: s.emitted_events :=
  handle_debug_fresh s r hd hfresh

/-- Witness for C5 on a concrete debug result carrying msg hello. -/
theorem c5_witness :
    (_handle_ok_result initState resDebug).trace =
      [(.dict [(.str "event", .str "task"), (.str "host", .str "web1"),
               (.str "role", PyVal.none), (.str "task", .str "say hello"),
               (.str "action", .str "debug")],
        ["COLOR_TASK", "COLOR_VERBOSE"]),
       (.dict [(.str "event", .str "debug"), (.str "host", .str "web1"),
               (.str "role", PyVal.none), (.str "task", .str "say hello"),
               (.str "msg", .str "hello")],
        ["COLOR_OK", "COLOR_DEBUG", "COLOR_VERBOSE"])] ∧
    (_handle_ok_result initState resDebug).emitted_events =
      [("debug", "web1", "uuid-2")] :=
  c5_debug_pair initState resDebug (by decide) (by decide)

/-- C9: the task and debug events of a debug-action result are gated by the
single dedup check of kind debug performed before either is queued: with the
key seen, neither event is queued and the state is untouched; with the key
fresh, both events are queued and the only key newly recorded is the debug
one, so no key of kind task is ever recorded for the pair. -/
theorem c9_debug_gate (s : CBState) (r : PyResult)
    (hd : _is_debug_task r.task = true) :
    (_event_key "debug" r ∈ s.emitted_events → _handle_ok_result s r = s) ∧
    (_event_key "debug" r ∉ s.emitted_events →
      (_handle_ok_result s r).trace.length = s.trace.length + 2 ∧
      (_handle_ok_result s r).emitted_events =
        _event_key "debug" r :: s.emitted_events ∧
      ∀ k : String × String × String, k ∈ (_handle_ok_result s r).emitted_events →
        k ∈ s.emitted_events ∨ k = _event_key "debug" r) := by
  constructor
  · intro hk
    have step : _should_emit_event s "debug" r = (false, s) := by
      simp [_should_emit_event, hk]
    simp [_handle_ok_result, hd, step]
  · intro hk
    have hpair := handle_debug_fresh s r hd hk
    refine ⟨?_, hpair.2, ?_⟩
    · rw [hpair.1]; simp
    · intro k hmem
      rw [hpair.2] at hmem
      rcases List.mem_cons.mp hmem with h1 | h1
      · exact Or.inr h1
      · exact Or.inl h1

/-- Witness for C9: with the debug key already recorded, the classifier
leaves the state untouched (neither event of the pair appears); with it
fresh, exactly the two events are queued. -/
theorem c9_witness :
    _handle_ok_result
      { initState with emitted_events := [("debug", "web1", "uuid-2")] } resDebug =
      { initState with emitted_events := [("debug", "web1", "uuid-2")] } ∧
    (_handle_ok_result initState resDebug).trace.length = 2 :=
  ⟨(c9_debug_gate { initState with emitted_events := [("debug", "web1", "uuid-2")] }
      resDebug (by decide)).1 (by decide),
   ((c9_debug_gate initState resDebug (by decide)).2 (by decide)).1⟩

/-- Running the emitter from a state with an open document and a pending
block: the pending block is comma-terminated and written before each newly
queued block replaces it, and the final flush writes the last block without
a comma; the trace grows by exactly the queued payloads in order. -/
theorem run_from_pending (ps : List (PyVal × List String)) :
    ∀ (s : CBState) (bl c : List String),
      s.json_opened = true → s.pending_event_line = some (bl, c) →
      _flush_pending_event (emitSeq ps s) =
        { s with
          pending_event_line := Option.none
          trace := s.trace ++ ps
          output := s.output ++ renderBlocksFrom (bl, c) ps } := by
  induction ps with
  | nil =>
      intro s bl c ho hp
      simp [emitSeq, _flush_pending_event, hp, _display_block_colored, renderBlocksFrom]
  | cons p ps ih =>
      intro s bl c ho hp
      have hemit : _emit_event s p.1 p.2 =
          { s with
            output := s.output ++ (_append_comma_to_block bl).map (fun l => ⟨l, c⟩)
            pending_event_line := some (_event_block p.1, p.2)
            trace := s.trace ++ [(p.1, p.2)] } := by
        unfold _emit_event
        simp [_open_json_document, ho, hp, _display_block_colored]
      rw [show emitSeq (p :: ps) s = emitSeq ps (_emit_event s p.1 p.2) from rfl, hemit]
      rw [ih
        { s with
          output := s.output ++ (_append_comma_to_block bl).map (fun l => ⟨l, c⟩)
          pending_event_line := some (_event_block p.1, p.2)
          trace := s.trace ++ [(p.1, p.2)] }
        (_event_block p.1) p.2 ho rfl]
      simp [renderBlocksFrom, List.append_assoc, CBState.mk.injEq]

/-- C1: the streaming emission protocol. For every sequence of queued
events, starting from the fresh state and flushing at end of stream, the
queued payloads appear in the trace in exactly their queue order, no block
remains pending, and the output is the opening scaffold followed by the
formatted blocks in queue order, every block except the very last
comma-terminated on its final line and the last one uncommaed. -/
theorem c1_emitter_protocol (ps : List (PyVal × List String)) :
    (_flush_pending_event (emitSeq ps initState)).trace = ps ∧
    (_flush_pending_event (emitSeq ps initState)).pending_event_line = Option.none ∧
    (_flush_pending_event (emitSeq ps initState)).output =
      (if ps.isEmpty then [] else
        [⟨"\x7b", []⟩, ⟨"  \"events\": [", []⟩] ++ renderBlocks ps) := by
  cases ps with
  | nil => exact ⟨rfl, rfl, rfl⟩
  | cons p ps =>
      have hemit : _emit_event initState p.1 p.2 =
          { initState with
            json_opened := true
            output := [⟨"\x7b", []⟩, ⟨"  \"events\": [", []⟩]
            pending_event_line := some (_event_block p.1, p.2)
            trace := [(p.1, p.2)] } := by
        unfold _emit_event
        simp [_open_json_document, initState, _display_block_colored]
      rw [show emitSeq (p :: ps) initState = emitSeq ps (_emit_event initState p.1 p.2)
        from rfl, hemit]
      rw [run_from_pending ps _ _ _ rfl rfl]
      refine ⟨by simp, rfl, by simp [renderBlocks]⟩

/-- The recap loop only appends its lines to the output. -/
theorem emitRecapLoop_output (stats : PyStats) (hosts : List String) :
    ∀ s : CBState, emitRecapLoop stats s hosts =
      { s with output := s.output ++ recapOutLines stats hosts } := by
  induction hosts with
  | nil => intro s; simp [emitRecapLoop, recapOutLines]
  | cons h rest ih =>
      intro s
      rw [show emitRecapLoop stats s (h :: rest) =
        emitRecapLoop stats
          (_display_colored s (recapLine h (buildSummary (stats.summarize h)) rest.isEmpty)
            (_recap_color_names (buildSummary (stats.summarize h)))) rest from rfl]
      rw [ih]
      simp [_display_colored, recapOutLines, List.append_assoc]

/-- C7: the end-of-run recap. The output gains, after the closing of the
events array, one line per tracked host: the hosts are exactly the tracked
ones in ascending name order, each line carries that host-name entry with
the seven-counter summary taken from that host, comma-suffixed on every
line except the last; and the styling tier of each line depends only on its
own summary with unreachable before failed before changed before plain ok. -/
theorem c7_recap (s : CBState) (stats : PyStats) :
    ((v2_playbook_on_stats s stats).output =
      (_flush_pending_event (_open_json_document s)).output ++
      [⟨"  ],", []⟩, ⟨"  \"play_recap\": \x7b", ["COLOR_TASK", "COLOR_VERBOSE"]⟩] ++
      recapOutLines stats (sortedHosts stats) ++
      [⟨"  \x7d", ["COLOR_TASK", "COLOR_VERBOSE"]⟩, ⟨"\x7d", []⟩]) ∧
    (sortedHosts stats).Sorted (· ≤ ·) ∧
    List.Perm (sortedHosts stats) stats.processed ∧
    (∀ summary, 0 < sGet summary "unreachable" →
      _recap_color_names summary = ["COLOR_UNREACHABLE", "COLOR_ERROR"]) ∧
    (∀ summary, sGet summary "unreachable" = 0 → 0 < sGet summary "failed" →
      _recap_color_names summary = ["COLOR_ERROR"]) ∧
    (∀ summary, sGet summary "unreachable" = 0 → sGet summary "failed" = 0 →
      0 < sGet summary "changed" →
      _recap_color_names summary = ["COLOR_CHANGED", "COLOR_WARN"]) ∧
    (∀ summary, sGet summary "unreachable" = 0 → sGet summary "failed" = 0 →
      sGet summary "changed" = 0 →
      _recap_color_names summary = ["COLOR_OK", "COLOR_VERBOSE"]) := by
  refine ⟨?_, List.sorted_insertionSort _ _, List.perm_insertionSort _ _, ?_, ?_, ?_, ?_⟩
  · simp only [v2_playbook_on_stats]
    rw [emitRecapLoop_output stats (sortedHosts stats)]
    simp [displayPlain, _display_colored, List.append_assoc]
  · intro summary h; simp [_recap_color_names, h]
  · intro summary h1 h2; simp [_recap_color_names, h1, h2]
  · intro summary h1 h2 h3; simp [_recap_color_names, h1, h2, h3]
  · intro summary h1 h2 h3; simp [_recap_color_names, h1, h2, h3]

/-- A statistics object with two hosts given out of order. -/
def statsTwoHosts : PyStats :=
  { processed := ["beta", "alpha"]
    summarize := fun h =>
      if h == "alpha" then [("ok", 2), ("changed", 1)] else [("failures", 1)] }

/-- Witness for C7: the four styling tiers on concrete summaries, by their
priority order. -/
theorem c7_witness :
    _recap_color_names [("unreachable", 1), ("failed", 1)] =
      ["COLOR_UNREACHABLE", "COLOR_ERROR"] ∧
    _recap_color_names [("failed", 2)] = ["COLOR_ERROR"] ∧
    _recap_color_names [("changed", 3)] = ["COLOR_CHANGED", "COLOR_WARN"] ∧
    _recap_color_names [("ok", 4)] = ["COLOR_OK", "COLOR_VERBOSE"] :=
  ⟨(c7_recap initState statsTwoHosts).2.2.2.1 _ (by decide),
   (c7_recap initState statsTwoHosts).2.2.2.2.1 _ (by decide) (by decide),
   (c7_recap initState statsTwoHosts).2.2.2.2.2.1 _ (by decide) (by decide) (by decide),
   (c7_recap initState statsTwoHosts).2.2.2.2.2.2 _ (by decide) (by decide) (by decide)⟩

/-- C10: the statistics hook alone produces a complete well-formed document.
Invoked on the fresh state, with no prior event and no playbook-start call,
it opens the scaffold itself, leaves the events array empty, writes the
recap and closes every bracket; nothing stays pending and no event was ever
queued. -/
theorem c10_stats_alone (stats : PyStats) :
    v2_playbook_on_stats initState stats =
      { initState with
        json_opened := true
        output := [⟨"\x7b", []⟩, ⟨"  \"events\": [", []⟩, ⟨"  ],", []⟩,
            ⟨"  \"play_recap\": \x7b", ["COLOR_TASK", "COLOR_VERBOSE"]⟩] ++
          recapOutLines stats (sortedHosts stats) ++
          [⟨"  \x7d", ["COLOR_TASK", "COLOR_VERBOSE"]⟩, ⟨"\x7d", []⟩] } := by
  simp only [v2_playbook_on_stats]
  rw [show _flush_pending_event (_open_json_document initState) =
      { initState with
        json_opened := true
        output := [⟨"\x7b", []⟩, ⟨"  \"events\": [", []⟩] } from rfl]
  rw [emitRecapLoop_output stats (sortedHosts stats)]
  simp [displayPlain, _display_colored, List.append_assoc, initState, CBState.mk.injEq]

/-- A mapping entry is no deeper than its mapping bound. -/
theorem depthEntriesR_bound {es : List (PyValR × PyValR)} {k v : PyValR}
    (h : (k, v) ∈ es) :
    depthR k ≤ depthEntriesR es ∧ depthR v ≤ depthEntriesR es := by
  induction es with
  | nil => cases h
  | cons kv rest ih =>
      rcases kv with ⟨k2, v2⟩
      rcases List.mem_cons.mp h with he | hm
      · rcases he with ⟨⟩
        exact ⟨le_trans (le_max_left _ _) (le_max_left _ _),
               le_trans (le_max_right _ _) (le_max_left _ _)⟩
      · have hb := ih hm
        exact ⟨le_trans hb.1 (le_max_right _ _), le_trans hb.2 (le_max_right _ _)⟩

/-- A sequence element is no deeper than its sequence bound. -/
theorem depthItemsR_bound {vs : List PyValR} {v : PyValR} (h : v ∈ vs) :
    depthR v ≤ depthItemsR vs := by
  induction vs with
  | nil => cases h
  | cons w rest ih =>
      rcases List.mem_cons.mp h with he | hm
      · rcases he with ⟨⟩
        exact le_max_left _ _
      · exact le_trans (ih hm) (le_max_right _ _)

/-- Mapping entries all sanitize successfully when the mapping afforded
enough depth for them. -/
theorem sanitizeEntriesFuel_ok (d : Nat)
    (hP : ∀ w : PyValR, depthR w < d → ∃ j, sanitizeFuel d w = .ok j) :
    ∀ es : List (PyValR × PyValR), depthEntriesR es < d →
      ∃ out, sanitizeEntriesFuel d es = .ok out := by
  intro es
  induction es with
  | nil => intro _; exact ⟨[], by simp [sanitizeEntriesFuel]⟩
  | cons kv rest ih =>
      rcases kv with ⟨k, v⟩
      intro hlt
      have hbk := depthEntriesR_bound (List.mem_cons_self (k, v) rest)
      obtain ⟨jk, hk⟩ := hP k (lt_of_le_of_lt hbk.1 hlt)
      obtain ⟨jv, hv⟩ := hP v (lt_of_le_of_lt hbk.2 hlt)
      have hrest : depthEntriesR rest < d :=
        lt_of_le_of_lt (le_max_right _ _) hlt
      obtain ⟨out, hout⟩ := ih hrest
      exact ⟨(pyStrJ jk, jv) :: out, by simp [sanitizeEntriesFuel, hk, hv, hout]⟩

/-- Sequence elements all sanitize successfully when the sequence afforded
enough depth for them. -/
theorem sanitizeItemsFuel_ok (d : Nat)
    (hP : ∀ w : PyValR, depthR w < d → ∃ j, sanitizeFuel d w = .ok j) :
    ∀ vs : List PyValR, depthItemsR vs < d →
      ∃ out, sanitizeItemsFuel d vs = .ok out := by
  intro vs
  induction vs with
  | nil => intro _; exact ⟨[], by simp [sanitizeItemsFuel]⟩
  | cons v rest ih =>
      intro hlt
      obtain ⟨jv, hv⟩ :=
        hP v (lt_of_le_of_lt (depthItemsR_bound (List.mem_cons_self v rest)) hlt)
      have hrest : depthItemsR rest < d := lt_of_le_of_lt (le_max_right _ _) hlt
      obtain ⟨out, hout⟩ := ih hrest
      exact ⟨jv :: out, by simp [sanitizeItemsFuel, hv, hout]⟩

/-- With enough fuel for the depth of the propagating frames, sanitizeFuel
succeeds. Scalars, unintrospectable objects, attribute-bag frames and the
cyclic self-referential object all have depth zero because the try around
the attribute-bag branch converts any error from below into the string
fallback. -/
theorem sanitizeFuel_ok : ∀ (d : Nat) (v : PyValR), depthR v < d →
    ∃ j, sanitizeFuel d v = .ok j := by
  intro d
  induction d with
  | zero => intro v hv; exact absurd hv (Nat.not_lt_zero _)
  | succ k ih =>
      intro v hv
      match v with
      | .none => exact ⟨.null, by simp [sanitizeFuel]⟩
      | .bool b => exact ⟨.bool b, by simp [sanitizeFuel]⟩
      | .int n => exact ⟨.int n, by simp [sanitizeFuel]⟩
      | .str s => exact ⟨.str s, by simp [sanitizeFuel]⟩
      | .bytes dd => exact ⟨.str dd, by simp [sanitizeFuel]⟩
      | .objRaise r => exact ⟨.str r, by simp [sanitizeFuel]⟩
      | .other r => exact ⟨.str r, by simp [sanitizeFuel]⟩
      | .obj attrs r =>
          cases h : sanitizeFuel k (.dict (attrs.map (fun kv => (.str kv.1, kv.2)))) with
          | error e => exact ⟨.str r, by simp [sanitizeFuel, h]⟩
          | ok j => exact ⟨j, by simp [sanitizeFuel, h]⟩
      | .selfLoop r =>
          cases h : sanitizeFuel k (.dict [(.str "self", .selfLoop r)]) with
          | error e => exact ⟨.str r, by simp [sanitizeFuel, h]⟩
          | ok j => exact ⟨j, by simp [sanitizeFuel, h]⟩
      | .dict es =>
          have hes : depthEntriesR es < k := by
            simp [depthR] at hv; omega
          obtain ⟨out, hout⟩ := sanitizeEntriesFuel_ok k ih es hes
          exact ⟨.obj out, by simp [sanitizeFuel, hout]⟩
      | .list vs =>
          have hvs : depthItemsR vs < k := by
            simp [depthR] at hv; omega
          obtain ⟨out, hout⟩ := sanitizeItemsFuel_ok k ih vs hvs
          exact ⟨.arr out, by simp [sanitizeFuel, hout]⟩
      | .tuple vs =>
          have hvs : depthItemsR vs < k := by
            simp [depthR] at hv; omega
          obtain ⟨out, hout⟩ := sanitizeItemsFuel_ok k ih vs hvs
          exact ⟨.arr out, by simp [sanitizeFuel, hout]⟩

/-- C6: the sanitizer terminates without raising on every input value,
including objects whose attribute bag cannot be introspected and the cyclic
self-referential attribute bag, degrading in the worst case to the string
rendering of the value. Under the bounded-recursion semantics: every value
whose error-propagating nesting fits in the recursion budget sanitizes
successfully; an unintrospectable object always sanitizes to its string
rendering; the cyclic self-referential object always sanitizes successfully,
and right at the recursion limit it does so via the fallback string
rendering. -/
theorem c6_sanitize_never_raises :
    (∀ (v : PyValR) (d : Nat), depthR v < d → ∃ j, sanitizeFuel d v = .ok j) ∧
    (∀ (s : String) (d : Nat), sanitizeFuel (d + 1) (.objRaise s) = .ok (.str s)) ∧
    (∀ (s : String) (d : Nat), ∃ j, sanitizeFuel (d + 1) (.selfLoop s) = .ok j) ∧
    (∀ s : String, sanitizeFuel 1 (.selfLoop s) = .ok (.str s)) := by
  refine ⟨fun v d h => sanitizeFuel_ok d v h, ?_, ?_, ?_⟩
  · intro s d; simp [sanitizeFuel]
  · intro s d
    cases h : sanitizeFuel d (.dict [(.str "self", .selfLoop s)]) with
    | error e => exact ⟨.str s, by simp [sanitizeFuel, h]⟩
    | ok j => exact ⟨j, by simp [sanitizeFuel, h]⟩
  · intro s
    simp [sanitizeFuel, sanitizeEntriesFuel]

/-- A value mixing nesting, an unintrospectable object and the cyclic
self-referential object. -/
def c6SampleVal : PyValR :=
  .dict [(.str "changed", .bool true),
         (.str "nested", .list [.selfLoop "cyc", .objRaise "bad"])]

/-- Witness for C6 on the concrete sample value with a concrete budget. -/
theorem c6_witness : ∃ j, sanitizeFuel 4 c6SampleVal = .ok j :=
  c6_sanitize_never_raises.1 c6SampleVal 4 (by decide)

end ChangedDebug
